import Mathlib

/-
Verification of the treasury-yield-analyzer analytics logic.

The dashboard (app.py) assembles Treasury yields into a date-indexed table
(a pandas DataFrame: rows = dates ascending, columns = maturity labels,
cells possibly missing / NaN) and renders latest-value metrics, a 2Y-10Y
spread and curve status, a yield-curve chart and a spread chart.

We embed the table as `YieldTable`, NaN cells as `Option` values
(`none` = missing / NaN), and translate each displayed computation of
app.py directly.  Dates are integers (a monotone encoding of calendar
dates, e.g. yyyymmdd) so that date differences and comparisons are exact.
-/

/-- Embedding of the pandas DataFrame produced by the data collector:
a list of column labels and, per row, a date together with the cell
values aligned with the column list (`none` is a NaN cell). -/
structure YieldTable where
  cols : List String
  rows : List (Int × List (Option ℚ))
deriving DecidableEq, Repr

namespace YieldTable

/-- Embedding of pandas `df.empty`: true when either axis has length zero. -/
def isEmpty (t : YieldTable) : Bool :=
  t.rows.isEmpty || t.cols.isEmpty

/-- Column values for the column at position `i` (`yields_df[mat]` once the
label has been resolved to a position): one optional value per row. -/
def colVals (t : YieldTable) (i : Nat) : List (Option ℚ) :=
  t.rows.map (fun r => r.2.getD i none)

/-- Values of the last row (`yields_df.iloc[-1]`), aligned with `cols`. -/
def lastRowVals (t : YieldTable) : List (Option ℚ) :=
  (t.rows.map Prod.snd).getLastD []

/-- Embedding of `latest_yields.get(mat, d)` in app.py: when the maturity
label is not a column, the scalar default `d` is returned; when the column
exists, the latest cell is returned (possibly NaN, i.e. `none`). -/
def latestGet (t : YieldTable) (mat : String) (d : ℚ) : Option ℚ :=
  match t.cols.findIdx? (· == mat) with
  | none => some d
  | some i => t.lastRowVals.getD i none

/-- Embedding of the guarded access in create_yield_curve_chart:
`mat in latest_yields.index and pd.notna(latest_yields[mat])` yields the
value; otherwise the maturity is absent at the latest date (`none`). -/
def latestCell (t : YieldTable) (mat : String) : Option ℚ :=
  match t.cols.findIdx? (· == mat) with
  | none => none
  | some i => t.lastRowVals.getD i none

end YieldTable

/-- Embedding of the Python slice `l[-30:-1]` used in app.py
(`.iloc[-30:-1]`): drop everything before the last 30 elements, then drop
the final element. -/
def pySlice30 {α : Type} (l : List α) : List α :=
  (l.drop (l.length - 30)).dropLast

/-- Embedding of pandas `Series.mean()` with its default `skipna=True`:
the mean of the non-missing values, NaN (`none`) when there are none. -/
def seriesMean (l : List (Option ℚ)) : Option ℚ :=
  let vs := l.filterMap id
  if vs.isEmpty then none else some (vs.sum / (vs.length : ℚ))

/-- NaN-propagating subtraction: `a - b` on floats where `none` plays NaN. -/
def optSub (a b : Option ℚ) : Option ℚ :=
  match a, b with
  | some x, some y => some (x - y)
  | _, _ => none

/-- What one `st.metric` call in main displays for a maturity: the shown
latest value and the shown delta (either may be NaN, i.e. `none`). -/
structure MetricDisplay where
  shown : Option ℚ
  delta : Option ℚ
deriving DecidableEq, Repr

/-- Embedding of the metric block of main for one maturity:
value is `latest_yields.get(mat, 0)` and delta is
`latest_yields.get(mat, 0) - yields_df[mat].iloc[-30:-1].mean()`.
The direct column access `yields_df[mat]` raises KeyError when the label
is not a column: `none` here stands for that uncaught exception, which
aborts the whole script run (see main_render, which maps it to the
crashed outcome and computes nothing further), never for a value the
rest of the script would keep using. -/
def displayedMetric (t : YieldTable) (mat : String) : Option MetricDisplay :=
  match t.cols.findIdx? (· == mat) with
  | none => none
  | some i =>
    some { shown := t.latestGet mat 0
           delta := optSub (t.latestGet mat 0) (seriesMean (pySlice30 (t.colVals i))) }

/-- Embedding of `spread_2y10y = latest_yields.get(2Y, 0) - latest_yields.get(10Y, 0)`
in main (the displayed 2Y-10Y spread). -/
def displayedSpread (t : YieldTable) : Option ℚ :=
  optSub (t.latestGet "2Y" 0) (t.latestGet "10Y" 0)

/-- Curve status rendered by main. -/
inductive CurveStatus where
  | NORMAL
  | INVERTED
deriving DecidableEq, Repr

/-- Embedding of the status displayed by main:
`"Inverted" if spread_2y10y < 0 else "Normal"`.  In Python a NaN compares
false under `<`, so a NaN spread is rendered Normal. -/
def classifySpread : Option ℚ → CurveStatus
  | some s => if s < 0 then CurveStatus.INVERTED else CurveStatus.NORMAL
  | none => CurveStatus.NORMAL

/-- Configuration values from src/config.py: the inversion threshold. -/
def INVERSION_THRESHOLD : ℚ := 0

/-- Configuration values from src/config.py: minimum inversion duration. -/
def MIN_INVERSION_DAYS : Int := 10

/-- Configuration values from src/config.py: the NBER recession periods,
dates encoded as yyyymmdd integers. -/
def RECESSION_PERIODS : List (Int × Int) :=
  [(19691201, 19701101), (19731101, 19750301), (19800101, 19800701),
   (19810701, 19821101), (19900701, 19910301), (20010301, 20011101),
   (20071201, 20090601), (20200201, 20200401)]

/-- Configuration values from src/config.py: maturity label to FRED
series identifier. -/
def TREASURY_SERIES : List (String × String) :=
  [("1M", "DGS1MO"), ("3M", "DGS3MO"), ("6M", "DGS6MO"), ("1Y", "DGS1"),
   ("2Y", "DGS2"), ("5Y", "DGS5"), ("10Y", "DGS10"), ("30Y", "DGS30")]

/-- Maturity labels hardcoded in create_yield_curve_chart. -/
def maturities : List String :=
  ["1M", "3M", "6M", "1Y", "2Y", "5Y", "10Y", "30Y"]

/-- Maturity x-coordinates hardcoded in create_yield_curve_chart. -/
def maturityYears : List ℚ :=
  [1/12, 1/4, 1/2, 1, 2, 5, 10, 30]

/-- Configuration record grouping the analysis parameters of
src/config.py that the analytics and charts consume. -/
structure Config where
  inversionThreshold : ℚ
  minInversionDays : Int
  recessionPeriods : List (Int × Int)
deriving DecidableEq, Repr

/-- Default configuration, values from src/config.py. -/
def defaultConfig : Config :=
  { inversionThreshold := INVERSION_THRESHOLD
    minInversionDays := MIN_INVERSION_DAYS
    recessionPeriods := RECESSION_PERIODS }

/-- Points of the current-curve trace in create_yield_curve_chart: for
each hardcoded maturity, a point (maturity_years, latest yield) is added
exactly when the label is a column and the latest value is not NaN. -/
def currentCurvePoints (t : YieldTable) : List (ℚ × ℚ) :=
  (maturities.zip maturityYears).filterMap
    (fun p => (t.latestCell p.1).map (fun v => (p.2, v)))

/-- Embedding of the figure built by create_yield_curve_chart (the parts
the specification talks about: the latest date and the current curve). -/
structure CurveChart where
  latestDate : Int
  currentCurve : List (ℚ × ℚ)
deriving DecidableEq, Repr

/-- Embedding of create_yield_curve_chart with its default
`compare_dates=None`: returns None (`none`) on an empty table, otherwise
the figure with the current-curve trace. -/
def create_yield_curve_chart (t : YieldTable) : Option CurveChart :=
  if t.isEmpty then none
  else some { latestDate := (t.rows.map Prod.fst).getLastD 0
              currentCurve := currentCurvePoints t }

/-- Embedding of the pandas column subtraction
`yields_df[short] - yields_df[long]` and of the trace built from it in
create_spread_chart: one entry per date of the table, the value NaN
(`none`) wherever either cell is NaN.  When either label is not a column
the trace is not built at all (empty). -/
def spreadTrace (t : YieldTable) (shortM longM : String) : List (Int × Option ℚ) :=
  match t.cols.findIdx? (· == shortM), t.cols.findIdx? (· == longM) with
  | some i, some j =>
      t.rows.map (fun r => (r.1, optSub (r.2.getD i none) (r.2.getD j none)))
  | _, _ => []

/-- Embedding of the figure built by create_spread_chart: the spread
traces and the recession shading rectangles. -/
structure SpreadChart where
  traces : List (String × List (Int × Option ℚ))
  shading : List (Int × Int)
deriving DecidableEq, Repr

/-- Embedding of create_spread_chart: None (`none`) on an empty table;
otherwise the 2Y-10Y and 3M-10Y traces (each only when both columns
exist) and one shading rectangle per configured recession period whose
start is not before the first date of the table. -/
def create_spread_chart (cfg : Config) (t : YieldTable) : Option SpreadChart :=
  if t.isEmpty then none
  else some
    { traces :=
        (if t.cols.contains "2Y" && t.cols.contains "10Y" then
          [("2Y-10Y Spread", spreadTrace t "2Y" "10Y")] else []) ++
        (if t.cols.contains "3M" && t.cols.contains "10Y" then
          [("3M-10Y Spread", spreadTrace t "3M" "10Y")] else [])
      shading :=
        cfg.recessionPeriods.filter
          (fun p => decide ((t.rows.map Prod.fst).headD 0 ≤ p.1)) }

/-- Embedding of the truthiness test `if curve_chart:` in main: a plotly
figure is truthy and None is falsy, so the chart is rendered exactly when
the builder returned a figure. -/
def chartShown (c : Option CurveChart) : Bool :=
  c.isSome

/-- Embedding of the truthiness test `if spread_chart:` in main. -/
def spreadChartShown (c : Option SpreadChart) : Bool :=
  c.isSome

/-- The SpreadSeries of the data model, written from the words of the
specification (section 3 and section 4.4): one entry per date at which
both maturities have values, spread = yield[short] - yield[long]; dates
where either is absent are skipped.  This is the claim side of the
refinement for the spread series, and also the detector input (the
specification has the detector run over the chosen spread series). -/
def claimedSpreadSeries (t : YieldTable) (shortM longM : String) : List (Int × ℚ) :=
  match t.cols.findIdx? (· == shortM), t.cols.findIdx? (· == longM) with
  | some i, some j =>
      t.rows.filterMap (fun r =>
        match r.2.getD i none, r.2.getD j none with
        | some a, some b => some (r.1, a - b)
        | _, _ => none)
  | _, _ => []

/-- Inversion episode record of the data model. -/
structure InversionEpisode where
  startDate : Int
  endDate : Int
  durationDays : Int
  maxInversion : ℚ
deriving DecidableEq, Repr

/-- Modelled from the spec: the InversionDetector state machine of
section 4.3.  Its implementation (identify_inversions of
data_collector.py, called by main) is not part of the repository
snapshot, so the scan follows the words of the specification: state
NORMAL when spread >= threshold, INVERTED when spread < threshold
(strict); NORMAL to INVERTED opens a candidate episode at the current
date; INVERTED to NORMAL closes it at the previous date; a sequence
ending while INVERTED closes at the final available date;
max_inversion_magnitude is the most negative spread observed, reported
as a positive magnitude; duration_days = end_date - start_date in
calendar days.  The accumulator carries the open candidate episode
(start date, last inverted date, magnitude so far). -/
def scanEpisodes (thr : ℚ) : List (Int × ℚ) → Option (Int × Int × ℚ) → List InversionEpisode
  | [], none => []
  | [], some (s, e, m) => [{ startDate := s, endDate := e, durationDays := e - s, maxInversion := m }]
  | (d, v) :: rest, none =>
      if v < thr then scanEpisodes thr rest (some (d, d, -v))
      else scanEpisodes thr rest none
  | (d, v) :: rest, some (s, e, m) =>
      if v < thr then scanEpisodes thr rest (some (s, d, max m (-v)))
      else { startDate := s, endDate := e, durationDays := e - s, maxInversion := m } :: scanEpisodes thr rest none

/-- Modelled from the spec: identify_inversions filters the scanned
episodes, discarding those with duration_days below the configured
minimum (section 4.3, noise filter). -/
def identify_inversions (thr : ℚ) (minDays : Int) (series : List (Int × ℚ)) : List InversionEpisode :=
  (scanEpisodes thr series none).filter (fun ep => decide (minDays ≤ ep.durationDays))

/-- Bundle of every analytics value main displays (latest metrics,
spread and status, spread series, inversion episodes) as a function of
the configuration and the table. -/
structure AnalyticsOutputs where
  tenYMetric : Option MetricDisplay
  twoYMetric : Option MetricDisplay
  spread2y10y : Option ℚ
  curveStatus : CurveStatus
  spreadSeries2y10y : List (Int × Option ℚ)
  spreadSeries3m10y : List (Int × Option ℚ)
  inversions : List InversionEpisode
deriving DecidableEq, Repr

/-- The analytics computations of a refresh cycle, routed through the
configuration exactly as the code routes them: the detector reads the
threshold and the minimum duration, nothing reads the recession periods. -/
def analyticsOutputs (cfg : Config) (t : YieldTable) : AnalyticsOutputs :=
  { tenYMetric := displayedMetric t "10Y"
    twoYMetric := displayedMetric t "2Y"
    spread2y10y := displayedSpread t
    curveStatus := classifySpread (displayedSpread t)
    spreadSeries2y10y := spreadTrace t "2Y" "10Y"
    spreadSeries3m10y := spreadTrace t "3M" "10Y"
    inversions := identify_inversions cfg.inversionThreshold cfg.minInversionDays
      (claimedSpreadSeries t "2Y" "10Y") }

/-- Everything main renders when the script runs to completion. -/
structure Dashboard where
  tenYMetric : MetricDisplay
  twoYMetric : MetricDisplay
  spread2y10y : Option ℚ
  curveStatus : CurveStatus
  inversions : List InversionEpisode
  curveChart : Option CurveChart
  spreadChart : Option SpreadChart
deriving DecidableEq, Repr

/-- Outcome of one run of main: the explicit no-data stop, an uncaught
exception aborting the script, or a fully rendered dashboard. -/
inductive RunResult where
  | noData : RunResult
  | crashed : RunResult
  | rendered : Dashboard → RunResult
deriving DecidableEq, Repr

/-- Embedding of main after a successful health check.  On an empty
table it shows an error and calls st.stop (noData): nothing further is
computed and nothing is retried.  Otherwise the 10Y metric block runs
first and its delta evaluates the direct column access yields_df[10Y],
then the 2Y block evaluates yields_df[2Y]: when either column is absent
the uncaught KeyError aborts the whole script (crashed), so the spread,
the curve status, the inversions and the charts of the later lines are
never computed or displayed.  Only with both columns present does the
script reach the end and render the full dashboard. -/
def main_render (cfg : Config) (t : YieldTable) : RunResult :=
  if t.isEmpty then RunResult.noData
  else
    match displayedMetric t "10Y", displayedMetric t "2Y" with
    | some m10, some m2 =>
        RunResult.rendered
          { tenYMetric := m10
            twoYMetric := m2
            spread2y10y := displayedSpread t
            curveStatus := classifySpread (displayedSpread t)
            inversions := identify_inversions cfg.inversionThreshold cfg.minInversionDays
              (claimedSpreadSeries t "2Y" "10Y")
            curveChart := create_yield_curve_chart t
            spreadChart := create_spread_chart cfg t }
    | _, _ => RunResult.crashed

/-- Claim-side definition for the metrics refinement: the last k elements
of a list. -/
def takeLast {α : Type} (k : Nat) (l : List α) : List α :=
  l.drop (l.length - k)

/-- Claim-side definition, written from the words of the claim: the
trailing average over exactly the last 30 rows preceding the latest row
of the column at position i. -/
def claimedTrailingAvg (t : YieldTable) (i : Nat) : Option ℚ :=
  seriesMean (takeLast 30 (t.colVals i).dropLast)

/-- Concrete table with a single 10Y column and 31 observations on
dates 0..30: value 30 at date 0 and value 0 afterwards. -/
def ex31 : YieldTable :=
  { cols := ["10Y"]
    rows := [(0, [some 30]), (1, [some 0]), (2, [some 0]), (3, [some 0]), (4,
      [some 0]), (5, [some 0]), (6, [some 0]), (7, [some 0]), (8, [some
      0]), (9, [some 0]), (10, [some 0]), (11, [some 0]), (12, [some 0]),
      (13, [some 0]), (14, [some 0]), (15, [some 0]), (16, [some 0]), (17,
      [some 0]), (18, [some 0]), (19, [some 0]), (20, [some 0]), (21,
      [some 0]), (22, [some 0]), (23, [some 0]), (24, [some 0]), (25,
      [some 0]), (26, [some 0]), (27, [some 0]), (28, [some 0]), (29,
      [some 0]), (30, [some 0])] }

/-- Concrete table with a single 10Y column and one observation. -/
def ex1 : YieldTable :=
  { cols := ["10Y"], rows := [(0, [some 5])] }

/-- Concrete table with 2Y and 10Y columns where the 10Y value is
missing (NaN) at the second date. -/
def exC3 : YieldTable :=
  { cols := ["2Y", "10Y"]
    rows := [(0, [some 2, some 1]), (1, [some 2, none])] }

/-- Concrete spread series: twelve consecutive days of inversion. -/
def exInvSeries : List (Int × ℚ) :=
  (List.range 12).map (fun k => ((k : Int), (-1 : ℚ)))

/-- Concrete spread series: six consecutive days of inversion, a run
shorter than the minimum duration. -/
def exShortSeries : List (Int × ℚ) :=
  (List.range 6).map (fun k => ((k : Int), (-1 : ℚ)))

/-- Concrete empty table. -/
def emptyTable : YieldTable :=
  { cols := [], rows := [] }

/-- Concrete table with both 2Y and 10Y fully populated. -/
def exC8 : YieldTable :=
  { cols := ["2Y", "10Y"]
    rows := [(0, [some 1, some 2]), (1, [some 3, some 1])] }

/-- Concrete configuration with the default recession periods. -/
def cfgA : Config :=
  { inversionThreshold := 0, minInversionDays := 10,
    recessionPeriods := RECESSION_PERIODS }

/-- Concrete configuration identical to cfgA except for an empty
recession-period list. -/
def cfgB : Config :=
  { inversionThreshold := 0, minInversionDays := 10, recessionPeriods := [] }

/-- Helper: subtracting NaN yields NaN. -/
theorem optSub_none_right (a : Option ℚ) : optSub a none = none := by
  cases a <;> rfl

/-- Helper: dropping the last element commutes with dropping a prefix. -/
theorem dropLast_drop_comm {α : Type} (l : List α) (k : Nat) :
    (l.drop k).dropLast = l.dropLast.drop k := by
  rw [List.dropLast_eq_take, List.dropLast_eq_take, List.drop_take, List.length_drop]
  congr 1
  omega

/-- Helper: the slice l[-30:-1] is the last 29 elements of the list with
its final element removed. -/
theorem pySlice30_eq_takeLast {α : Type} (l : List α) :
    pySlice30 l = takeLast 29 l.dropLast := by
  unfold pySlice30 takeLast
  rw [dropLast_drop_comm, List.length_dropLast]
  congr 1

/-- Helper: on a list of at most 30 elements the slice l[-30:-1] is
everything but the final element. -/
theorem pySlice30_of_le {α : Type} (l : List α) (h : l.length ≤ 30) :
    pySlice30 l = l.dropLast := by
  unfold pySlice30
  rw [Nat.sub_eq_zero_of_le h, List.drop_zero]

/-- Helper: a column has one value per row. -/
theorem colVals_length (t : YieldTable) (i : Nat) :
    (t.colVals i).length = t.rows.length := by
  simp [YieldTable.colVals]


/-- Helper: unfolding of seriesMean without its let binding. -/
theorem seriesMean_eq (l : List (Option ℚ)) :
    seriesMean l = if (l.filterMap id).isEmpty then none
      else some ((l.filterMap id).sum / ((l.filterMap id).length : ℚ)) := rfl

/-- Claim C1: it states that the displayed 30-day metric averages exactly
the last 30 rows preceding the latest row.  Counterexample: on the
31-observation table ex31 (value 30 at the first date, 0 afterwards) the
code slices iloc[-30:-1], which is only the 29 rows preceding the latest
(all zeros, average 0, displayed delta 0), while the average over the
last 30 rows preceding the latest row is 1, which would give delta -1. -/
theorem C1_counterexample :
    displayedMetric ex31 "10Y" = some { shown := some 0, delta := some 0 } ∧
    optSub (ex31.latestGet "10Y" 0) (claimedTrailingAvg ex31 0) = some (-1) ∧
    some (-1 : ℚ) ≠ some (0 : ℚ) := by
  have h1 : displayedMetric ex31 "10Y" =
      some { shown := ex31.latestGet "10Y" 0
             delta := optSub (ex31.latestGet "10Y" 0)
               (seriesMean (pySlice30 (ex31.colVals 0))) } := rfl
  have hlat : ex31.latestGet "10Y" 0 = some 0 := rfl
  have hfm : List.filterMap id (pySlice30 (ex31.colVals 0)) = List.replicate 29 (0:ℚ) := rfl
  have hm : seriesMean (pySlice30 (ex31.colVals 0)) = some 0 := by
    rw [seriesMean_eq, hfm]
    norm_num [List.sum_replicate]
  have hfm2 : List.filterMap id (takeLast 30 (ex31.colVals 0).dropLast) =
      (30:ℚ) :: List.replicate 29 0 := rfl
  have hm2 : claimedTrailingAvg ex31 0 = some 1 := by
    unfold claimedTrailingAvg
    rw [seriesMean_eq, hfm2]
    norm_num [List.sum_cons, List.sum_replicate]
  refine ⟨?_, ?_, by norm_num⟩
  · rw [h1, hlat, hm]
    norm_num [optSub]
  · rw [hlat, hm2]
    norm_num [optSub]

/-- Claim C1 (amended): for a table whose maturity column is fully
populated with at least 31 observations, the displayed metric shows the
latest value and delta = latest minus trailing average, where the
trailing average is over exactly the last 29 rows preceding the latest
row (the slice iloc[-30:-1]), not 30 as claimed. -/
theorem C1_amended (t : YieldTable) (mat : String) (i : Nat)
    (hi : t.cols.findIdx? (· == mat) = some i)
    (hall : (t.colVals i).all Option.isSome = true)
    (hn : 31 ≤ t.rows.length) :
    displayedMetric t mat =
      some { shown := t.latestGet mat 0
             delta := optSub (t.latestGet mat 0)
               (seriesMean (takeLast 29 (t.colVals i).dropLast)) } ∧
    (takeLast 29 (t.colVals i).dropLast).length = 29 := by
  constructor
  · simp only [displayedMetric, hi, pySlice30_eq_takeLast]
  · unfold takeLast
    rw [List.length_drop, List.length_dropLast, colVals_length]
    omega

/-- Witness for C1_amended at the 31-observation table ex31. -/
theorem C1_witness :
    displayedMetric ex31 "10Y" =
      some { shown := ex31.latestGet "10Y" 0
             delta := optSub (ex31.latestGet "10Y" 0)
               (seriesMean (takeLast 29 (ex31.colVals 0).dropLast)) } ∧
    (takeLast 29 (ex31.colVals 0).dropLast).length = 29 :=
  C1_amended ex31 "10Y" 0 rfl (by decide) (by decide)

/-- Claim C3: it states that the spread series contains one entry per
date at which both maturities have values and skips entirely every date
where either is absent.  Counterexample: on exC3 the 10Y value is missing
at the second date, yet the trace built by create_spread_chart still has
an entry for that date (with a NaN value), so it has two entries while
the series described by the claim has one. -/
theorem C3_counterexample :
    spreadTrace exC3 "2Y" "10Y" = [(0, some 1), (1, none)] ∧
    claimedSpreadSeries exC3 "2Y" "10Y" = [(0, 1)] ∧
    (spreadTrace exC3 "2Y" "10Y").length ≠ (claimedSpreadSeries exC3 "2Y" "10Y").length := by
  have h1 : spreadTrace exC3 "2Y" "10Y" = [(0, some ((2:ℚ) - 1)), (1, none)] := rfl
  have h2 : claimedSpreadSeries exC3 "2Y" "10Y" = [(0, (2:ℚ) - 1)] := rfl
  have h21 : ((2:ℚ) - 1) = 1 := by norm_num
  refine ⟨by rw [h1, h21], by rw [h2, h21], ?_⟩
  rw [h1, h2]
  simp

/-- Claim C3 (amended): when both maturity columns exist, the spread
trace has one entry per date of the table (in the same order); at a date
where both maturities have values the entry is yield[short] minus
yield[long]; at a date where either is absent the entry is present but
its value is missing (NaN, rendered as a gap) - neither interpolated nor
zero-filled. -/
theorem C3_amended (t : YieldTable) (i j : Nat)
    (hi : t.cols.findIdx? (· == "2Y") = some i)
    (hj : t.cols.findIdx? (· == "10Y") = some j) :
    ((spreadTrace t "2Y" "10Y").map Prod.fst = t.rows.map Prod.fst) ∧
    ∀ (k : Nat) (r : Int × List (Option ℚ)), t.rows[k]? = some r →
      (∀ a b, r.2.getD i none = some a → r.2.getD j none = some b →
        (spreadTrace t "2Y" "10Y")[k]? = some (r.1, some (a - b))) ∧
      ((r.2.getD i none = none ∨ r.2.getD j none = none) →
        (spreadTrace t "2Y" "10Y")[k]? = some (r.1, none)) := by
  have ht : spreadTrace t "2Y" "10Y" =
      t.rows.map (fun r => (r.1, optSub (r.2.getD i none) (r.2.getD j none))) := by
    unfold spreadTrace
    rw [hi, hj]
  constructor
  · rw [ht, List.map_map]
    simp
  · intro k r hk
    constructor
    · intro a b ha hb
      rw [ht, List.getElem?_map, hk, Option.map_some', ha, hb]
      rfl
    · intro hcase
      rw [ht, List.getElem?_map, hk, Option.map_some']
      rcases hcase with h | h
      · rw [h]
        rfl
      · rw [h, optSub_none_right]

/-- Witness for C3_amended at the table exC3. -/
theorem C3_witness :
    (spreadTrace exC3 "2Y" "10Y")[0]? = some (0, some ((2:ℚ) - 1)) ∧
    (spreadTrace exC3 "2Y" "10Y")[1]? = some (1, none) :=
  ⟨(((C3_amended exC3 0 1 rfl rfl).2 0 (0, [some 2, some 1]) rfl).1) 2 1 rfl rfl,
   (((C3_amended exC3 0 1 rfl rfl).2 1 (1, [some 2, none]) rfl).2) (Or.inr rfl)⟩

/-- Claim C4: confirmed.  The displayed curve status is INVERTED exactly
when the spread is strictly below the inversion threshold (the default
0.0 of src/config.py, hardcoded as 0 in main); a spread exactly equal to
the threshold is classified NORMAL. -/
theorem C4_threshold (s : ℚ) :
    (classifySpread (some s) = CurveStatus.INVERTED ↔ s < INVERSION_THRESHOLD) ∧
    classifySpread (some INVERSION_THRESHOLD) = CurveStatus.NORMAL := by
  constructor
  · show (if s < 0 then CurveStatus.INVERTED else CurveStatus.NORMAL) =
        CurveStatus.INVERTED ↔ s < INVERSION_THRESHOLD
    unfold INVERSION_THRESHOLD
    split_ifs with h
    · simp [h]
    · simp [h]
  · rfl

/-- Witness for C4_threshold: a strictly negative spread is INVERTED and
a spread equal to the threshold is NORMAL. -/
theorem C4_witness :
    classifySpread (some (-1)) = CurveStatus.INVERTED ∧
    classifySpread (some INVERSION_THRESHOLD) = CurveStatus.NORMAL :=
  ⟨(C4_threshold (-1)).1.mpr (by norm_num [INVERSION_THRESHOLD]),
   (C4_threshold (-1)).2⟩

/-- Claim C5: confirmed against the spec-modelled detector.  Every
inversion episode in the output of identify_inversions has duration_days
at least MIN_INVERSION_DAYS; shorter inverted runs are discarded by the
noise filter and never appear. -/
theorem C5_min_duration (series : List (Int × ℚ)) (ep : InversionEpisode)
    (h : ep ∈ identify_inversions INVERSION_THRESHOLD MIN_INVERSION_DAYS series) :
    MIN_INVERSION_DAYS ≤ ep.durationDays := by
  unfold identify_inversions at h
  rw [List.mem_filter] at h
  exact of_decide_eq_true h.2

/-- Witness for C5_min_duration: a 12-day inverted run produces one
episode of duration 11 (at least the minimum 10), while a 6-day run is
discarded entirely. -/
theorem C5_witness :
    identify_inversions INVERSION_THRESHOLD MIN_INVERSION_DAYS exInvSeries =
      [{ startDate := 0, endDate := 11, durationDays := 11, maxInversion := 1 }] ∧
    identify_inversions INVERSION_THRESHOLD MIN_INVERSION_DAYS exShortSeries = [] ∧
    MIN_INVERSION_DAYS ≤
      ({ startDate := 0, endDate := 11, durationDays := 11, maxInversion := 1 } :
        InversionEpisode).durationDays :=
  ⟨by decide, by decide,
   C5_min_duration exInvSeries _ (by decide)⟩

/-- Claim C6: confirmed.  On an empty assembled table main reports the
load error and stops (st.stop), computing no metrics, no inversions and
no spreads and not retrying; this halt is the noData outcome. -/
theorem C6_no_data_halts (cfg : Config) (t : YieldTable) (h : t.isEmpty = true) :
    main_render cfg t = RunResult.noData := by
  unfold main_render
  rw [h]
  rfl

/-- Witness for C6_no_data_halts at the empty table. -/
theorem C6_witness : main_render defaultConfig emptyTable = RunResult.noData :=
  C6_no_data_halts defaultConfig emptyTable rfl

/-- Claim C7: confirmed.  With a populated maturity column of at most 30
rows (fewer than 31 observations, at least 1) the metric computation
still produces a result (never throws): the slice iloc[-30:-1] is then
exactly all rows but the latest, the average is taken over them, and
with a single observation the average of the empty slice is NaN, so the
delta is NaN (no delta available), not zero. -/
theorem C7_short_history (t : YieldTable) (mat : String) (i : Nat)
    (hi : t.cols.findIdx? (· == mat) = some i)
    (h1 : 1 ≤ t.rows.length) (h30 : t.rows.length ≤ 30) :
    displayedMetric t mat =
      some { shown := t.latestGet mat 0
             delta := optSub (t.latestGet mat 0) (seriesMean (t.colVals i).dropLast) } ∧
    (t.rows.length = 1 →
      optSub (t.latestGet mat 0) (seriesMean (t.colVals i).dropLast) = none) := by
  have hlen : (t.colVals i).length ≤ 30 := by
    rw [colVals_length]
    exact h30
  constructor
  · simp only [displayedMetric, hi, pySlice30_of_le _ hlen]
  · intro he
    have hd : (t.colVals i).dropLast = [] := by
      apply List.eq_nil_of_length_eq_zero
      rw [List.length_dropLast, colVals_length, he]
    rw [hd]
    have hm : seriesMean [] = none := rfl
    rw [hm, optSub_none_right]

/-- Witness for C7_short_history at the one-observation table ex1. -/
theorem C7_witness :
    displayedMetric ex1 "10Y" =
      some { shown := ex1.latestGet "10Y" 0
             delta := optSub (ex1.latestGet "10Y" 0) (seriesMean (ex1.colVals 0).dropLast) } ∧
    optSub (ex1.latestGet "10Y" 0) (seriesMean (ex1.colVals 0).dropLast) = none :=
  ⟨(C7_short_history ex1 "10Y" 0 rfl (by decide) (by decide)).1,
   (C7_short_history ex1 "10Y" 0 rfl (by decide) (by decide)).2 rfl⟩

/-- Claim C8: confirmed.  Two configurations that agree on the inversion
threshold and the minimum inversion duration and differ only in the
recession-period list produce identical analytics outputs (latest
metrics, spread values and status, spread series, inversion episodes):
the recession periods reach only the chart shading. -/
theorem C8_recession_noninterference (c1 c2 : Config) (t : YieldTable)
    (hth : c1.inversionThreshold = c2.inversionThreshold)
    (hmd : c1.minInversionDays = c2.minInversionDays) :
    analyticsOutputs c1 t = analyticsOutputs c2 t := by
  unfold analyticsOutputs
  rw [hth, hmd]

/-- Witness for C8_recession_noninterference: the default recession list
versus an empty one, on a concrete populated table. -/
theorem C8_witness :
    cfgA.recessionPeriods ≠ cfgB.recessionPeriods ∧
    analyticsOutputs cfgA exC8 = analyticsOutputs cfgB exC8 :=
  ⟨by decide, C8_recession_noninterference cfgA cfgB exC8 rfl rfl⟩

/-- Claim C9: confirmed.  On an empty table both chart builders return
None rather than a figure, and the truthiness checks of main render a
chart only when the builder returned one. -/
theorem C9_empty_charts (cfg : Config) (t : YieldTable) (h : t.isEmpty = true) :
    create_yield_curve_chart t = none ∧ create_spread_chart cfg t = none ∧
    chartShown (create_yield_curve_chart t) = false ∧
    spreadChartShown (create_spread_chart cfg t) = false := by
  unfold create_yield_curve_chart create_spread_chart
  rw [h]
  exact ⟨rfl, rfl, rfl, rfl⟩

/-- Witness for C9_empty_charts at the empty table. -/
theorem C9_witness :
    create_yield_curve_chart emptyTable = none ∧
    create_spread_chart defaultConfig emptyTable = none ∧
    chartShown (create_yield_curve_chart emptyTable) = false ∧
    spreadChartShown (create_spread_chart defaultConfig emptyTable) = false :=
  C9_empty_charts defaultConfig emptyTable rfl

/-- Claim C10: confirmed.  The maturity labels used for plotting are
exactly the key set of the configured TREASURY_SERIES mapping, there are
exactly eight of them, and every plotted label has a configured source
series identifier. -/
theorem C10_maturities_match_series :
    maturities = TREASURY_SERIES.map Prod.fst ∧
    maturities.length = 8 ∧
    maturities.all (fun m => (TREASURY_SERIES.lookup m).isSome) = true :=
  ⟨rfl, rfl, by decide⟩
